import Mathlib

/-!
Verification development for the bladeRF radio-frontend adapter
(lib/src/phy/rf/rf_blade_imp.c of srsRAN 4G, HypermagiK fork).

The driver is embedded shallowly.  The underlying libbladeRF transport and
the srsRAN vector-conversion primitives are external collaborators: they are
modelled as pure response stubs (structures `Transport` and `Env`), and every
call the driver makes into the transport is recorded in an explicit trace of
`TCall` events, so that statements such as "no transport call is issued" or
"the transfer is issued after the stream start" become statements about the
trace.  Fault events dispatched through the process-wide error-handler slot
are likewise collected in a list, guarded by a `reg` flag that models whether
a handler is registered.  The fixed-capacity scratch buffers are modelled as
functions from scalar-component index (of the configured wire sample width)
to the wire integer value; they are per-call values because the driver never
reads a stale scratch byte across calls.
-/

namespace RfBlade

/-! Constants from the source. -/

def CONVERT_BUFFER_SIZE : Nat := 128 * 1024 * 2

/-- Cardinality of uint32.  In the receive capacity check the source computes
2 * nsamples with nsamples a uint32_t, so that product is taken in 32-bit
unsigned arithmetic — it wraps modulo this — before the surrounding size_t
multiplications widen it. -/
def UINT32_CARD : Nat := 4294967296

def num_buffers : Nat := 256
def num_transfers : Nat := 64
def timeout_ms : Nat := 1000

def SRSRAN_SUCCESS : Int := 0
def SRSRAN_ERROR : Int := -1

def BLADERF_ERR_TIME_PAST : Int := -14

def BLADERF_META_STATUS_OVERRUN : Nat := 1
def BLADERF_META_STATUS_UNDERRUN : Nat := 2

def BLADERF_META_FLAG_TX_BURST_START : Nat := 1
def BLADERF_META_FLAG_TX_BURST_END : Nat := 2
def BLADERF_META_FLAG_TX_NOW : Nat := 4
def BLADERF_META_FLAG_RX_NOW : Nat := 2147483648

/-- Hardware channels / channel layouts (BLADERF_RX_X1, BLADERF_RX_X2,
BLADERF_TX_X1, BLADERF_TX_X2). -/
inductive Chan where
  | rx1
  | rx2
  | tx1
  | tx2
deriving DecidableEq

/-- Wire sample formats used by the driver. -/
inductive BladerfFormat where
  | sc16q11meta
  | sc8q7meta
  | sc16q11
  | sc8q7
deriving DecidableEq

/-- Transfer metadata returned by the transport on a receive. -/
structure BladerfMeta where
  timestamp : Nat
  status : Nat
  actual_count : Nat
deriving DecidableEq

/-- One call from the driver into the libbladeRF transport. -/
inductive TCall where
  | syncConfig (layout : Chan) (fmt : BladerfFormat) (bufSize : Nat)
  | enableModule (ch : Chan) (enable : Bool)
  | openDev (id : String)
  | setTuningMode (fpga : Bool)
  | setGainMode (ch : Chan)
  | syncRx (count : Nat)
  | syncTx (count : Nat) (flags : Nat) (timestamp : Nat)
  | deinterleaveBuf (layout : Chan) (fmt : BladerfFormat) (count : Nat)
  | interleaveBuf (layout : Chan) (fmt : BladerfFormat) (count : Nat)
  | getTimestamp
deriving DecidableEq

/-- Typed fault events dispatched through the registered error handler
(srsran_rf_error_t as the driver fills it). -/
inductive FaultEvent where
  | overflow (actual_count : Nat)
  | underflow
  | late
deriving DecidableEq

/-- Session state (rf_blade_handler_t), without the scratch buffers, which
are modelled per call. -/
structure Handler where
  nof_tx_channels : Nat
  nof_rx_channels : Nat
  tx_rate : Nat
  rx_rate : Nat
  iq_scale : ℚ
  sample_size : Nat
  format : BladerfFormat
  buffer_format : BladerfFormat
  rx_stream_enabled : Bool
  tx_stream_enabled : Bool
deriving DecidableEq

/-- Deterministic response stub for the libbladeRF transport.  Each field
gives the status (and any output data) the transport would return for a call
with the given arguments. -/
structure Transport where
  sync_config : Chan → BladerfFormat → Nat → Int
  enable_module : Chan → Bool → Int
  open_dev : String → Int
  set_tuning_mode : Bool → Int
  set_gain_mode : Chan → Int
  sync_rx : Nat → Int × BladerfMeta
  sync_tx : Nat → Nat → Nat → Int × Nat
  deinterleave : Chan → BladerfFormat → Nat → Int
  interleave : Chan → BladerfFormat → Nat → Int
  get_timestamp : Int × Nat

/-- External pure numeric collaborators: the pointwise float-to-wire
conversions behind srsran_vec_convert_fb / srsran_vec_convert_fi, and the
host-time-to-ticks conversion behind srsran_timestamp_uint64. -/
structure Env where
  cvt_fb : ℚ → ℚ → Int
  cvt_fi : ℚ → ℚ → Int
  ts_to_ticks : Int → ℚ → Nat → Nat

/-! Stream start and stop (rf_blade_start_tx_stream, rf_blade_stop_rx_stream). -/

structure StartResult where
  status : Int
  handler : Handler
  trace : List TCall

/-- Embedding of rf_blade_start_tx_stream: configure the TX sync interface,
enable the TX module for channel 1 and (if dual-channel) channel 2, setting
tx_stream_enabled only when everything succeeded. -/
def rf_blade_start_tx_stream (T : Transport) (h : Handler) : StartResult :=
  let buffer_size := 2048 + 1024 * (h.tx_rate / 10000000)
  let layout := if h.nof_tx_channels = 1 then Chan.tx1 else Chan.tx2
  let s := T.sync_config layout h.format buffer_size
  let tr := [TCall.syncConfig layout h.format buffer_size]
  if s ≠ 0 then ⟨s, h, tr⟩
  else
    let s1 := T.enable_module Chan.tx1 true
    let tr1 := tr ++ [TCall.enableModule Chan.tx1 true]
    if s1 ≠ 0 then ⟨s1, h, tr1⟩
    else if h.nof_tx_channels > 1 then
      let s2 := T.enable_module Chan.tx2 true
      let tr2 := tr1 ++ [TCall.enableModule Chan.tx2 true]
      if s2 ≠ 0 then ⟨s2, h, tr2⟩
      else ⟨0, { h with tx_stream_enabled := true }, tr2⟩
    else ⟨0, { h with tx_stream_enabled := true }, tr1⟩

/-- Embedding of rf_blade_stop_rx_stream: unconditionally disable RX1,
RX2 (if dual RX), TX1, TX2 (if dual TX); the first transport failure aborts
and returns its code; on full success both stream-enabled flags are cleared. -/
def rf_blade_stop_rx_stream (T : Transport) (h : Handler) : StartResult :=
  let s := T.enable_module Chan.rx1 false
  let tr := [TCall.enableModule Chan.rx1 false]
  if s ≠ 0 then ⟨s, h, tr⟩
  else
    let step2 : Int × List TCall :=
      if h.nof_rx_channels > 1 then
        (T.enable_module Chan.rx2 false, tr ++ [TCall.enableModule Chan.rx2 false])
      else (0, tr)
    if step2.1 ≠ 0 then ⟨step2.1, h, step2.2⟩
    else
      let s3 := T.enable_module Chan.tx1 false
      let tr3 := step2.2 ++ [TCall.enableModule Chan.tx1 false]
      if s3 ≠ 0 then ⟨s3, h, tr3⟩
      else
        let step4 : Int × List TCall :=
          if h.nof_tx_channels > 1 then
            (T.enable_module Chan.tx2 false, tr3 ++ [TCall.enableModule Chan.tx2 false])
          else (0, tr3)
        if step4.1 ≠ 0 then ⟨step4.1, h, step4.2⟩
        else ⟨0, { h with rx_stream_enabled := false, tx_stream_enabled := false }, step4.2⟩

/-! Time conversion (timestamp_to_secs, rf_blade_get_time). -/

/-- Embedding of timestamp_to_secs: total seconds is timestamp divided by the
rate; the integral part is the truncation of that nonnegative quantity (so its
floor), the fractional part the remainder.  The C doubles are modelled by
exact rationals. -/
def timestamp_to_secs (rate : Nat) (timestamp : Nat) : Int × ℚ :=
  let totalsecs : ℚ := (timestamp : ℚ) / (rate : ℚ)
  let secs_i : Int := ⌊totalsecs⌋
  (secs_i, totalsecs - secs_i)

structure GetTimeResult where
  secs : Int
  frac_secs : ℚ
  trace : List TCall

/-- Embedding of rf_blade_get_time: read the hardware RX timestamp from the
transport (a failing status is only logged) and convert whatever timestamp
value the metadata holds with the configured RX rate.  The second component
of the transport response is the value meta.timestamp holds after the call. -/
def rf_blade_get_time (T : Transport) (h : Handler) : GetTimeResult :=
  let ts := (T.get_timestamp).2
  let conv := timestamp_to_secs h.rx_rate ts
  ⟨conv.1, conv.2, [TCall.getTimestamp]⟩

/-! Receive path (rf_blade_recv_with_time_multi). -/

structure RecvResult where
  ret : Int
  time_out : Option (Int × ℚ)
  handler : Handler
  trace : List TCall
  faults : List FaultEvent
  conversions : List (Nat × Nat)

/-- Embedding of rf_blade_recv_with_time_multi.  The argument data models the
per-channel destination pointers: data i is true when channel i's pointer is
non-null.  The conversions field records, per wire-to-float conversion call
issued, the channel index and the scalar-component count passed to the
conversion primitive.  In the capacity check, 2 * nsamples is computed in
32-bit unsigned arithmetic (nsamples is a uint32_t in the source), so it
wraps modulo 2^32 before the size_t multiplications by sample_size and
nof_rx_channels; those 64-bit products cannot wrap for the field values the
driver configures (sample_size ≤ 2, channels ≤ 2). -/
def rf_blade_recv_with_time_multi (T : Transport) (reg : Bool) (h : Handler)
    (data : Nat → Bool) (nsamples : Nat) : RecvResult :=
  if (2 * nsamples) % UINT32_CARD * h.sample_size * h.nof_rx_channels > CONVERT_BUFFER_SIZE then
    ⟨-1, none, h, [], [], []⟩
  else
    let sr := T.sync_rx (nsamples * h.nof_rx_channels)
    let tr := [TCall.syncRx (nsamples * h.nof_rx_channels)]
    if sr.1 ≠ 0 then ⟨-1, none, h, tr, [], []⟩
    else
      let meta := sr.2
      let faults :=
        if meta.status &&& BLADERF_META_STATUS_OVERRUN ≠ 0 then
          if reg then
            if nsamples ≠ meta.actual_count / h.nof_rx_channels then
              [FaultEvent.overflow meta.actual_count]
            else [FaultEvent.underflow]
          else []
        else []
      let time := timestamp_to_secs h.rx_rate meta.timestamp
      let layout := if h.nof_rx_channels = 1 then Chan.rx1 else Chan.rx2
      let ds := T.deinterleave layout h.buffer_format (meta.actual_count * h.nof_rx_channels)
      let tr2 := tr ++ [TCall.deinterleaveBuf layout h.buffer_format
        (meta.actual_count * h.nof_rx_channels)]
      if ds ≠ 0 then ⟨-1, some time, h, tr2, faults, []⟩
      else
        let n := meta.actual_count / h.nof_rx_channels
        let convs := (List.range h.nof_rx_channels).filterMap
          (fun i => if data i then some (i, 2 * n) else none)
        ⟨(n : Int), some time, h, tr2, faults, convs⟩

/-! Transmit path (rf_blade_send_timed_multi). -/

/-- Write of one channel into the TX scratch buffer (one iteration of the
conversion loop): a non-null channel is converted pointwise from float to the
wire format into its slice of 2 * n scalar components starting at 2 * n * i;
a null channel's slice is zero-filled (memset). -/
def tx_write_chan (E : Env) (scale : ℚ) (fmt : BladerfFormat) (n : Nat)
    (src : Option (Nat → ℚ)) (i : Nat) (buf : Nat → Int) : Nat → Int :=
  fun k =>
    if 2 * n * i ≤ k ∧ k < 2 * n * i + 2 * n then
      match src with
      | some d =>
          if fmt = BladerfFormat.sc8q7 then E.cvt_fb scale (d (k - 2 * n * i))
          else E.cvt_fi scale (d (k - 2 * n * i))
      | none => 0
    else buf k

/-- The full conversion loop of rf_blade_send_timed_multi over all configured
TX channels, starting from the scratch buffer's previous (stale) content. -/
def tx_fill (E : Env) (scale : ℚ) (fmt : BladerfFormat) (ch n : Nat)
    (data : Nat → Option (Nat → ℚ)) (buf0 : Nat → Int) : Nat → Int :=
  (List.range ch).foldl (fun buf i => tx_write_chan E scale fmt n (data i) i buf) buf0

structure SendResult where
  ret : Int
  handler : Handler
  trace : List TCall
  faults : List FaultEvent
  tx_starts : Nat
  wire_buffer : Option (Nat → Int)

/-- Body of rf_blade_send_timed_multi after the lazy TX stream start:
capacity check, per-channel conversion into the scratch buffer, in-place
interleave, metadata assembly and the synchronous transfer with its status
handling.  The wire_buffer field exposes the scratch buffer contents as they
are passed to the interleave primitive. -/
def send_after_start (T : Transport) (E : Env) (reg : Bool) (h1 : Handler)
    (buf0 : Nat → Int) (data : Nat → Option (Nat → ℚ)) (nsamples : Nat)
    (secs : Int) (frac_secs : ℚ)
    (has_time_spec is_start_of_burst is_end_of_burst : Bool) : SendResult :=
  if 2 * nsamples * h1.sample_size * h1.nof_tx_channels > CONVERT_BUFFER_SIZE then
    ⟨-1, h1, [], [], 0, none⟩
  else
    let buf := tx_fill E h1.iq_scale h1.buffer_format h1.nof_tx_channels nsamples data buf0
    let layout := if h1.nof_tx_channels = 1 then Chan.tx1 else Chan.tx2
    let icall := TCall.interleaveBuf layout h1.buffer_format (nsamples * h1.nof_tx_channels)
    let istatus := T.interleave layout h1.buffer_format (nsamples * h1.nof_tx_channels)
    if istatus ≠ 0 then ⟨-1, h1, [icall], [], 0, some buf⟩
    else
      let base : Nat × Nat :=
        if is_start_of_burst then
          if has_time_spec then
            (BLADERF_META_FLAG_TX_BURST_START, E.ts_to_ticks secs frac_secs h1.tx_rate)
          else (BLADERF_META_FLAG_TX_NOW + BLADERF_META_FLAG_TX_BURST_START, 0)
        else (0, 0)
      let flags := base.1 + (if is_end_of_burst then BLADERF_META_FLAG_TX_BURST_END else 0)
      let tx := T.sync_tx (nsamples * h1.nof_tx_channels) flags base.2
      let tr := [icall, TCall.syncTx (nsamples * h1.nof_tx_channels) flags base.2]
      if tx.1 = BLADERF_ERR_TIME_PAST then
        ⟨(nsamples : Int), h1, tr, if reg then [FaultEvent.late] else [], 0, some buf⟩
      else if tx.1 ≠ 0 then ⟨tx.1, h1, tr, [], 0, some buf⟩
      else if tx.2 = BLADERF_META_STATUS_UNDERRUN then
        ⟨(nsamples : Int), h1, tr, if reg then [FaultEvent.underflow] else [], 0, some buf⟩
      else ⟨(nsamples : Int), h1, tr, [], 0, some buf⟩

/-- Embedding of rf_blade_send_timed_multi: when the TX stream is not
enabled, rf_blade_start_tx_stream is invoked first and its status is
discarded; the rest of the call proceeds on the handler state the start left
behind.  The tx_starts field counts the stream-start invocations made by this
call. -/
def rf_blade_send_timed_multi (T : Transport) (E : Env) (reg : Bool) (h : Handler)
    (buf0 : Nat → Int) (data : Nat → Option (Nat → ℚ)) (nsamples : Nat)
    (secs : Int) (frac_secs : ℚ)
    (has_time_spec is_start_of_burst is_end_of_burst : Bool) : SendResult :=
  if h.tx_stream_enabled then
    send_after_start T E reg h buf0 data nsamples secs frac_secs
      has_time_spec is_start_of_burst is_end_of_burst
  else
    let s := rf_blade_start_tx_stream T h
    let r := send_after_start T E reg s.handler buf0 data nsamples secs frac_secs
      has_time_spec is_start_of_burst is_end_of_burst
    { r with trace := s.trace ++ r.trace, tx_starts := 1 }

/-! Session open (rf_blade_open_multi). -/

structure Args where
  nof_tx_channels : Option Nat
  nof_rx_channels : Option Nat
  format : Option String
  log_level : Option String
  device_id : Option String
  tuning_mode : Option String

structure OpenResult where
  status : Int
  session : Option Handler
  trace : List TCall

def defaultFormatStr : String := "sc16"
def defaultLogLevelStr : String := "silent"
def defaultDeviceIdStr : String := ""
def defaultTuningModeStr : String := "host"

/-- Resolution of the format configuration value, as the strcmp chain in
rf_blade_open_multi does it: iq_scale, sample_size, stream format and buffer
format, or none for an unrecognized value. -/
def resolve_format (s : String) : Option (ℚ × Nat × BladerfFormat × BladerfFormat) :=
  if s = "sc16" then some (2048, 2, BladerfFormat.sc16q11meta, BladerfFormat.sc16q11)
  else if s = "sc8" then some (128, 1, BladerfFormat.sc8q7meta, BladerfFormat.sc8q7)
  else none

/-- Log levels accepted by the strcmp chain in rf_blade_open_multi. -/
def valid_log_level (s : String) : Bool :=
  s = "verbose" || s = "debug" || s = "info" || s = "warn" || s = "error" ||
    s = "critical" || s = "silent"

/-- Embedding of rf_blade_open_multi.  The args structure models the parsed
key-value configuration string (a key that is absent leaves its default); h0
models the uninitialized malloc'd handler memory, whose fields the function
overwrites selectively.  The session field is some handler exactly when the
open returns success. -/
def rf_blade_open_multi (T : Transport) (h0 : Handler) (args : Args)
    (nof_channels : Nat) : OpenResult :=
  if nof_channels > 2 then ⟨SRSRAN_ERROR, none, []⟩
  else
    let ntx0 := args.nof_tx_channels.getD 0
    let nrx0 := args.nof_rx_channels.getD 0
    let ntx := if ntx0 = 0 ∨ ntx0 > nof_channels then nof_channels else ntx0
    let nrx := if nrx0 = 0 ∨ nrx0 > nof_channels then nof_channels else nrx0
    let fmtStr := args.format.getD defaultFormatStr
    match resolve_format fmtStr with
    | none => ⟨SRSRAN_ERROR, none, []⟩
    | some (scale, ssize, fmt, bfmt) =>
      let lvl := args.log_level.getD defaultLogLevelStr
      if ¬ valid_log_level lvl then ⟨SRSRAN_ERROR, none, []⟩
      else
        let devId := args.device_id.getD defaultDeviceIdStr
        let tmode := args.tuning_mode.getD defaultTuningModeStr
        let so := T.open_dev devId
        let tr := [TCall.openDev devId]
        if so ≠ 0 then ⟨so, none, tr⟩
        else
          let tunRes : Option (Int × List TCall) :=
            if tmode = "fpga" then some (T.set_tuning_mode true, tr ++ [TCall.setTuningMode true])
            else if tmode = "host" then
              some (T.set_tuning_mode false, tr ++ [TCall.setTuningMode false])
            else none
          match tunRes with
          | none => ⟨SRSRAN_ERROR, none, tr⟩
          | some (st, tr2) =>
            if st ≠ 0 then ⟨st, none, tr2⟩
            else
              let sg := T.set_gain_mode Chan.rx1
              let tr3 := tr2 ++ [TCall.setGainMode Chan.rx1]
              if sg ≠ 0 then ⟨sg, none, tr3⟩
              else
                let gain2 : Int × List TCall :=
                  if nrx > 1 then (T.set_gain_mode Chan.rx2, tr3 ++ [TCall.setGainMode Chan.rx2])
                  else (0, tr3)
                if gain2.1 ≠ 0 then ⟨gain2.1, none, gain2.2⟩
                else
                  ⟨SRSRAN_SUCCESS,
                    some { h0 with
                      nof_tx_channels := ntx
                      nof_rx_channels := nrx
                      iq_scale := scale
                      sample_size := ssize
                      format := fmt
                      buffer_format := bfmt
                      rx_stream_enabled := false
                      tx_stream_enabled := false },
                    gain2.2⟩

/-! Concrete stubs for evaluating the model on closed inputs. -/

/-- Transport stub whose every call succeeds and returns zeroed data. -/
def Tzero : Transport where
  sync_config := fun _ _ _ => 0
  enable_module := fun _ _ => 0
  open_dev := fun _ => 0
  set_tuning_mode := fun _ => 0
  set_gain_mode := fun _ => 0
  sync_rx := fun _ => (0, ⟨0, 0, 0⟩)
  sync_tx := fun _ _ _ => (0, 0)
  deinterleave := fun _ _ _ => 0
  interleave := fun _ _ _ => 0
  get_timestamp := (0, 0)

/-- Trivial numeric environment. -/
def Ezero : Env where
  cvt_fb := fun _ _ => 0
  cvt_fi := fun _ _ => 0
  ts_to_ticks := fun _ _ _ => 0

/-- A single-channel sc16 session as rf_blade_open_multi would configure it. -/
def hSC16 : Handler where
  nof_tx_channels := 1
  nof_rx_channels := 1
  tx_rate := 23040000
  rx_rate := 23040000
  iq_scale := 2048
  sample_size := 2
  format := BladerfFormat.sc16q11meta
  buffer_format := BladerfFormat.sc16q11
  rx_stream_enabled := false
  tx_stream_enabled := false

/-- Configuration-string model with every key absent. -/
def argsEmpty : Args := ⟨none, none, none, none, none, none⟩

/-- An unrecognized format value. -/
def badFormatStr : String := "sc12"

/-- An unrecognized log_level value. -/
def badLogLevelStr : String := "chatty"

/-- An unrecognized tuning_mode value. -/
def badTuningModeStr : String := "auto"

/-! Theorems for the claims. -/

/-- C1 counterexample: the source computes 2 * nsamples in 32-bit unsigned
arithmetic, which wraps.  At nsamples = 2^31 on the single-channel sc16
session the mathematical request size (2^33 bytes) exceeds the scratch
capacity, so the claim demands a -1 return with no transport call; but the
wrapped guard sees (2 * 2^31) mod 2^32 = 0, passes, and the call issues the
synchronous receive and completes with the transport count. -/
theorem recv_capacity_check_wraps_counterexample :
    2 * 2147483648 * hSC16.sample_size * hSC16.nof_rx_channels > CONVERT_BUFFER_SIZE ∧
    (rf_blade_recv_with_time_multi Tzero true hSC16 (fun _ => true) 2147483648).ret ≠ -1 ∧
    (rf_blade_recv_with_time_multi Tzero true hSC16 (fun _ => true) 2147483648).trace ≠ [] ∧
    TCall.syncRx 2147483648 ∈
      (rf_blade_recv_with_time_multi Tzero true hSC16 (fun _ => true) 2147483648).trace := by
  decide

/-- C1 (amended): whenever the capacity check as the program computes it —
2 * nsamples wrapped to 32 bits, times sample_size, times nof_rx_channels —
exceeds the scratch buffer capacity of 128K * sizeof(int16_t) bytes,
rf_blade_recv_with_time_multi returns the negative capacity error -1, issues
no transport call, dispatches no fault, performs no conversion, writes no
timestamp, and leaves the session state unchanged.  For nsamples < 2^31 the
wrapped product equals the mathematical one, so every over-capacity request
in that range is rejected exactly as the original claim states; from 2^31 on
the 32-bit wrap of 2 * nsamples can defeat the guard (see the
counterexample). -/
theorem recv_capacity_error_no_side_effects (T : Transport) (reg : Bool) (h : Handler)
    (data : Nat → Bool) (nsamples : Nat)
    (hcap : (2 * nsamples) % UINT32_CARD * h.sample_size * h.nof_rx_channels >
      CONVERT_BUFFER_SIZE) :
    (rf_blade_recv_with_time_multi T reg h data nsamples).ret = -1 ∧
    (rf_blade_recv_with_time_multi T reg h data nsamples).ret < 0 ∧
    (rf_blade_recv_with_time_multi T reg h data nsamples).trace = [] ∧
    (rf_blade_recv_with_time_multi T reg h data nsamples).handler = h ∧
    (rf_blade_recv_with_time_multi T reg h data nsamples).faults = [] ∧
    (rf_blade_recv_with_time_multi T reg h data nsamples).conversions = [] ∧
    (rf_blade_recv_with_time_multi T reg h data nsamples).time_out = none := by
  simp [rf_blade_recv_with_time_multi, hcap]

/-- Witness for C1's amended theorem: a 70000-sample request on a
single-channel sc16 session (well below the wrap) trips the capacity check
and is rejected with no transport call. -/
theorem recv_capacity_error_no_side_effects_witness :
    (2 * 70000) % UINT32_CARD * hSC16.sample_size * hSC16.nof_rx_channels >
      CONVERT_BUFFER_SIZE ∧
    (rf_blade_recv_with_time_multi Tzero true hSC16 (fun _ => true) 70000).ret = -1 ∧
    (rf_blade_recv_with_time_multi Tzero true hSC16 (fun _ => true) 70000).trace = [] :=
  ⟨by decide,
   (recv_capacity_error_no_side_effects Tzero true hSC16 (fun _ => true) 70000 (by decide)).1,
   (recv_capacity_error_no_side_effects Tzero true hSC16 (fun _ => true) 70000 (by decide)).2.2.1⟩

/-- C10: rf_blade_get_time never signals failure (its embedding returns no
status at all, mirroring the void C function): for every transport response,
including a failing timestamp-read status, it writes both outputs as the
conversion of whatever timestamp value the metadata holds with the configured
RX rate; the seconds output is the truncation of timestamp / rate, the
fractional output the nonnegative sub-second remainder, and the only
transport interaction is the single timestamp read. -/
theorem get_time_total (T : Transport) (h : Handler) (hr : 0 < h.rx_rate) :
    (rf_blade_get_time T h).secs = ⌊((T.get_timestamp).2 : ℚ) / (h.rx_rate : ℚ)⌋ ∧
    ((rf_blade_get_time T h).secs : ℚ) + (rf_blade_get_time T h).frac_secs =
      ((T.get_timestamp).2 : ℚ) / (h.rx_rate : ℚ) ∧
    0 ≤ (rf_blade_get_time T h).frac_secs ∧
    (rf_blade_get_time T h).frac_secs < 1 ∧
    (rf_blade_get_time T h).trace = [TCall.getTimestamp] := by
  have hfr : ∀ q : ℚ, q - (⌊q⌋ : ℚ) = Int.fract q := fun q => rfl
  refine ⟨rfl, ?_, ?_, ?_, rfl⟩
  · simp [rf_blade_get_time, timestamp_to_secs]
  · simpa [rf_blade_get_time, timestamp_to_secs, hfr] using
      Int.fract_nonneg (((T.get_timestamp).2 : ℚ) / (h.rx_rate : ℚ))
  · simpa [rf_blade_get_time, timestamp_to_secs, hfr] using
      Int.fract_lt_one (((T.get_timestamp).2 : ℚ) / (h.rx_rate : ℚ))

/-- Witness for C10: with a transport whose timestamp read fails (status -5)
while the metadata holds tick value 34560123, a 23.04 MHz session still gets
both outputs written, with seconds 1. -/
theorem get_time_total_witness :
    0 < hSC16.rx_rate ∧
    (rf_blade_get_time { Tzero with get_timestamp := (-5, 34560123) } hSC16).secs =
      ⌊((34560123 : ℚ)) / ((23040000 : ℚ))⌋ ∧
    (rf_blade_get_time { Tzero with get_timestamp := (-5, 34560123) } hSC16).trace =
      [TCall.getTimestamp] :=
  ⟨by decide,
   (get_time_total { Tzero with get_timestamp := (-5, 34560123) } hSC16 (by decide)).1,
   (get_time_total { Tzero with get_timestamp := (-5, 34560123) } hSC16 (by decide)).2.2.2.2⟩

/-- C8 counterexample: on a single-channel session with both streams already
Idle and an all-succeeding transport, rf_blade_stop_rx_stream is not
transport-silent: it still issues the module-disable calls for RX channel 1
and TX channel 1, so the claimed "performs no module-disable transport
calls" is false. -/
theorem stop_when_idle_issues_disable_calls :
    hSC16.rx_stream_enabled = false ∧ hSC16.tx_stream_enabled = false ∧
    (rf_blade_stop_rx_stream Tzero hSC16).trace =
      [TCall.enableModule Chan.rx1 false, TCall.enableModule Chan.tx1 false] ∧
    (rf_blade_stop_rx_stream Tzero hSC16).trace ≠ [] := by
  refine ⟨rfl, rfl, ?_, ?_⟩ <;> decide

/-- C8 amended: calling rf_blade_stop_rx_stream when both streams are
already Idle still unconditionally issues the module-disable transport calls
(RX channel 1 and TX channel 1, plus channel 2 of each direction when dual);
when those disable calls all succeed it returns success and leaves the
session state, in particular the stream-enabled flags, unchanged. -/
theorem stop_when_idle_returns_success_flags_unchanged (T : Transport) (h : Handler)
    (hrx : h.rx_stream_enabled = false) (htx : h.tx_stream_enabled = false)
    (hen : ∀ c b, T.enable_module c b = 0) :
    (rf_blade_stop_rx_stream T h).status = 0 ∧
    (rf_blade_stop_rx_stream T h).handler = h ∧
    TCall.enableModule Chan.rx1 false ∈ (rf_blade_stop_rx_stream T h).trace ∧
    TCall.enableModule Chan.tx1 false ∈ (rf_blade_stop_rx_stream T h).trace ∧
    (rf_blade_stop_rx_stream T h).trace ≠ [] := by
  have hh : { h with rx_stream_enabled := false, tx_stream_enabled := false } = h := by
    cases h
    simp_all
  unfold rf_blade_stop_rx_stream
  simp only [hen]
  split_ifs <;> simp_all

/-- Witness for C8's amended theorem: the idle single-channel sc16 session
with the all-succeeding transport. -/
theorem stop_when_idle_returns_success_flags_unchanged_witness :
    (rf_blade_stop_rx_stream Tzero hSC16).status = 0 ∧
    (rf_blade_stop_rx_stream Tzero hSC16).handler = hSC16 :=
  ⟨(stop_when_idle_returns_success_flags_unchanged Tzero hSC16 rfl rfl
      (fun _ _ => rfl)).1,
   (stop_when_idle_returns_success_flags_unchanged Tzero hSC16 rfl rfl
      (fun _ _ => rfl)).2.1⟩

/-- A request whose mathematical size fits the scratch buffer also passes
the guard as the program computes it: wrapping 2 * nsamples to 32 bits can
only shrink the product, so the sub-capacity domain is unaffected by the
wrap. -/
theorem wrapped_capacity_le (nsamples ss ch : Nat)
    (hcap : ¬ 2 * nsamples * ss * ch > CONVERT_BUFFER_SIZE) :
    ¬ (2 * nsamples) % UINT32_CARD * ss * ch > CONVERT_BUFFER_SIZE := by
  have h1 : (2 * nsamples) % UINT32_CARD ≤ 2 * nsamples := Nat.mod_le _ _
  have h2 : (2 * nsamples) % UINT32_CARD * ss * ch ≤ 2 * nsamples * ss * ch :=
    Nat.mul_le_mul_right ch (Nat.mul_le_mul_right ss h1)
  omega

/-- Characterization of rf_blade_recv_with_time_multi on the path where the
capacity check passes and both the transfer and the deinterleave succeed. -/
theorem recv_success_spec (T : Transport) (reg : Bool) (h : Handler)
    (data : Nat → Bool) (nsamples : Nat) (meta : BladerfMeta)
    (hcap : ¬ 2 * nsamples * h.sample_size * h.nof_rx_channels > CONVERT_BUFFER_SIZE)
    (hrx : T.sync_rx (nsamples * h.nof_rx_channels) = (0, meta))
    (hde : ∀ l f c, T.deinterleave l f c = 0) :
    rf_blade_recv_with_time_multi T reg h data nsamples =
      { ret := ((meta.actual_count / h.nof_rx_channels : Nat) : Int)
        time_out := some (timestamp_to_secs h.rx_rate meta.timestamp)
        handler := h
        trace := [TCall.syncRx (nsamples * h.nof_rx_channels),
                  TCall.deinterleaveBuf
                    (if h.nof_rx_channels = 1 then Chan.rx1 else Chan.rx2)
                    h.buffer_format (meta.actual_count * h.nof_rx_channels)]
        faults :=
          if meta.status &&& BLADERF_META_STATUS_OVERRUN ≠ 0 then
            (if reg then
              (if nsamples ≠ meta.actual_count / h.nof_rx_channels then
                [FaultEvent.overflow meta.actual_count]
               else [FaultEvent.underflow])
             else [])
          else []
        conversions :=
          (List.range h.nof_rx_channels).filterMap
            (fun i => if data i then some (i, 2 * (meta.actual_count / h.nof_rx_channels))
                      else none) } := by
  unfold rf_blade_recv_with_time_multi
  rw [if_neg (wrapped_capacity_le nsamples h.sample_size h.nof_rx_channels hcap)]
  simp only [hrx, hde]
  simp

/-- C3: when the transport receive succeeds but its metadata carries the
overrun status bit, rf_blade_recv_with_time_multi dispatches exactly one
fault event when a handler is registered — OVERFLOW carrying the transport's
actual count when the requested nsamples differs from actual_count divided by
the RX channel count, UNDERFLOW otherwise — and dispatches nothing when no
handler is registered, in which case the call still completes with the
nonnegative per-channel count rather than an error. -/
theorem recv_overrun_fault_classification (T : Transport) (reg : Bool) (h : Handler)
    (data : Nat → Bool) (nsamples : Nat) (meta : BladerfMeta)
    (hcap : ¬ 2 * nsamples * h.sample_size * h.nof_rx_channels > CONVERT_BUFFER_SIZE)
    (hrx : T.sync_rx (nsamples * h.nof_rx_channels) = (0, meta))
    (hov : meta.status &&& BLADERF_META_STATUS_OVERRUN ≠ 0)
    (hde : ∀ l f c, T.deinterleave l f c = 0) :
    (rf_blade_recv_with_time_multi T reg h data nsamples).faults =
      (if reg then
        (if nsamples ≠ meta.actual_count / h.nof_rx_channels then
          [FaultEvent.overflow meta.actual_count]
         else [FaultEvent.underflow])
       else []) ∧
    (reg = true → (rf_blade_recv_with_time_multi T reg h data nsamples).faults.length = 1) ∧
    (reg = false → (rf_blade_recv_with_time_multi T reg h data nsamples).faults = []) ∧
    (rf_blade_recv_with_time_multi T reg h data nsamples).ret =
      ((meta.actual_count / h.nof_rx_channels : Nat) : Int) ∧
    0 ≤ (rf_blade_recv_with_time_multi T reg h data nsamples).ret := by
  rw [recv_success_spec T reg h data nsamples meta hcap hrx hde]
  refine ⟨by simp [hov], ?_, ?_, rfl, Int.natCast_nonneg _⟩
  · intro hreg
    subst hreg
    simp only [hov, if_true, if_pos]
    split_ifs <;> rfl
  · intro hreg
    subst hreg
    simp

/-- Witness for C3: an overrun with actual count 80 against a 100-sample
request on the single-channel sc16 session yields exactly the OVERFLOW fault
with count 80 when a handler is registered. -/
theorem recv_overrun_fault_classification_witness :
    (rf_blade_recv_with_time_multi
      { Tzero with sync_rx := fun _ => (0, ⟨0, 1, 80⟩) } true hSC16 (fun _ => true) 100).faults =
      [FaultEvent.overflow 80] ∧
    (rf_blade_recv_with_time_multi
      { Tzero with sync_rx := fun _ => (0, ⟨0, 1, 80⟩) } true hSC16 (fun _ => true) 100).ret = 80 := by
  have := recv_overrun_fault_classification
    { Tzero with sync_rx := fun _ => (0, ⟨0, 1, 80⟩) } true hSC16 (fun _ => true) 100
    ⟨0, 1, 80⟩ (by decide) rfl (by decide) (fun _ _ _ => rfl)
  exact ⟨by simpa using this.1, by simpa using this.2.2.2.1⟩

/-- C5: for every receive call where the transport transfer and the
deinterleave both succeed, rf_blade_recv_with_time_multi returns the
transport-reported actual count divided by the configured RX channel count
(possibly less than the requested nsamples), and issues exactly one
wire-to-float conversion of 2 * that count scalar components for each
non-null channel buffer and none for null ones. -/
theorem recv_success_count_and_conversions (T : Transport) (reg : Bool) (h : Handler)
    (data : Nat → Bool) (nsamples : Nat) (meta : BladerfMeta)
    (hcap : ¬ 2 * nsamples * h.sample_size * h.nof_rx_channels > CONVERT_BUFFER_SIZE)
    (hrx : T.sync_rx (nsamples * h.nof_rx_channels) = (0, meta))
    (hde : ∀ l f c, T.deinterleave l f c = 0) :
    (rf_blade_recv_with_time_multi T reg h data nsamples).ret =
      ((meta.actual_count / h.nof_rx_channels : Nat) : Int) ∧
    (rf_blade_recv_with_time_multi T reg h data nsamples).conversions =
      (List.range h.nof_rx_channels).filterMap
        (fun i => if data i then some (i, 2 * (meta.actual_count / h.nof_rx_channels))
                  else none) ∧
    (∀ i, i < h.nof_rx_channels → data i = true →
      (i, 2 * (meta.actual_count / h.nof_rx_channels)) ∈
        (rf_blade_recv_with_time_multi T reg h data nsamples).conversions) ∧
    (∀ i c, data i = false →
      (i, c) ∉ (rf_blade_recv_with_time_multi T reg h data nsamples).conversions) := by
  rw [recv_success_spec T reg h data nsamples meta hcap hrx hde]
  refine ⟨rfl, rfl, ?_, ?_⟩
  · intro i hi hdat
    simp only [List.mem_filterMap]
    exact ⟨i, List.mem_range.mpr hi, by simp [hdat]⟩
  · intro i c hdat
    simp only [List.mem_filterMap, not_exists, not_and]
    intro j hj
    by_cases hji : data j = true
    · rw [if_pos hji]
      intro hcontra
      rw [Option.some_inj, Prod.mk.injEq] at hcontra
      rw [hcontra.1] at hji
      rw [hdat] at hji
      exact Bool.false_ne_true hji
    · rw [if_neg hji]
      intro hcontra
      exact Option.noConfusion hcontra

/-- Witness for C5: a partial transfer of 60 samples against a 100-sample
request on the single-channel sc16 session returns 60 and converts 120
scalar components for the one non-null channel. -/
theorem recv_success_count_and_conversions_witness :
    (rf_blade_recv_with_time_multi
      { Tzero with sync_rx := fun _ => (0, ⟨0, 0, 60⟩) } false hSC16 (fun _ => true) 100).ret = 60 ∧
    (rf_blade_recv_with_time_multi
      { Tzero with sync_rx := fun _ => (0, ⟨0, 0, 60⟩) } false hSC16 (fun _ => true) 100).conversions =
      [(0, 120)] := by
  have := recv_success_count_and_conversions
    { Tzero with sync_rx := fun _ => (0, ⟨0, 0, 60⟩) } false hSC16 (fun _ => true) 100
    ⟨0, 0, 60⟩ (by decide) rfl (fun _ _ _ => rfl)
  exact ⟨by simpa using this.1, by simpa using this.2.1⟩

/-- A null channel's slice of the TX scratch buffer is zero after the
conversion loop: channel writes land in pairwise disjoint slices, so no later
channel overwrites the zero fill. -/
theorem tx_fill_null_slice (E : Env) (scale : ℚ) (fmt : BladerfFormat) (ch n : Nat)
    (data : Nat → Option (Nat → ℚ)) (buf0 : Nat → Int) (i k : Nat)
    (hi : i < ch) (hnull : data i = none)
    (hk1 : 2 * n * i ≤ k) (hk2 : k < 2 * n * i + 2 * n) :
    tx_fill E scale fmt ch n data buf0 k = 0 := by
  induction ch with
  | zero => omega
  | succ m ih =>
    rw [tx_fill, List.range_succ, List.foldl_append, List.foldl_cons, List.foldl_nil]
    rcases Nat.lt_succ_iff_lt_or_eq.mp hi with hlt | heq
    · have hmul : 2 * n * (i + 1) ≤ 2 * n * m := Nat.mul_le_mul_left _ hlt
      have hk3 : k < 2 * n * (i + 1) := by rw [Nat.mul_succ]; exact hk2
      have hne : ¬ (2 * n * m ≤ k ∧ k < 2 * n * m + 2 * n) := by
        intro hc
        exact absurd (lt_of_lt_of_le hk3 hmul) (not_lt.mpr hc.1)
      simp only [tx_write_chan]
      rw [if_neg hne]
      exact ih hlt
    · subst heq
      simp only [tx_write_chan]
      rw [if_pos ⟨hk1, hk2⟩, hnull]

/-- rf_blade_start_tx_stream only ever touches the tx_stream_enabled flag:
every configuration field of the session survives the call unchanged. -/
theorem start_tx_preserves_config (T : Transport) (h : Handler) :
    ((rf_blade_start_tx_stream T h).handler).nof_tx_channels = h.nof_tx_channels ∧
    ((rf_blade_start_tx_stream T h).handler).sample_size = h.sample_size ∧
    ((rf_blade_start_tx_stream T h).handler).buffer_format = h.buffer_format ∧
    ((rf_blade_start_tx_stream T h).handler).iq_scale = h.iq_scale ∧
    ((rf_blade_start_tx_stream T h).handler).tx_rate = h.tx_rate ∧
    ((rf_blade_start_tx_stream T h).handler).nof_rx_channels = h.nof_rx_channels := by
  simp only [rf_blade_start_tx_stream]
  split_ifs <;> simp

/-- The trace of rf_blade_start_tx_stream contains no synchronous transfer:
only sync-interface configuration and module enables. -/
theorem start_tx_trace_no_syncTx (T : Transport) (h : Handler) :
    ∀ c ∈ (rf_blade_start_tx_stream T h).trace, ∀ n f t, c ≠ TCall.syncTx n f t := by
  simp only [rf_blade_start_tx_stream]
  split_ifs <;> simp

set_option maxHeartbeats 1000000 in
/-- The body of the transmit call after the lazy start performs no further
stream-start transitions. -/
theorem send_after_start_no_starts (T : Transport) (E : Env) (reg : Bool) (h1 : Handler)
    (buf0 : Nat → Int) (data : Nat → Option (Nat → ℚ)) (nsamples : Nat)
    (secs : Int) (frac_secs : ℚ) (has_time_spec is_start_of_burst is_end_of_burst : Bool) :
    (send_after_start T E reg h1 buf0 data nsamples secs frac_secs
      has_time_spec is_start_of_burst is_end_of_burst).tx_starts = 0 := by
  unfold send_after_start
  dsimp only
  split_ifs <;> rfl

set_option maxHeartbeats 1000000 in
/-- On the path where the capacity check passes, the transmit body converts
into the scratch buffer (exposing it as wire_buffer) and always issues the
interleave transport call. -/
theorem send_after_start_buffer (T : Transport) (E : Env) (reg : Bool) (h1 : Handler)
    (buf0 : Nat → Int) (data : Nat → Option (Nat → ℚ)) (nsamples : Nat)
    (secs : Int) (frac_secs : ℚ) (has_time_spec is_start_of_burst is_end_of_burst : Bool)
    (hcap : ¬ 2 * nsamples * h1.sample_size * h1.nof_tx_channels > CONVERT_BUFFER_SIZE) :
    (send_after_start T E reg h1 buf0 data nsamples secs frac_secs
      has_time_spec is_start_of_burst is_end_of_burst).wire_buffer =
      some (tx_fill E h1.iq_scale h1.buffer_format h1.nof_tx_channels nsamples data buf0) ∧
    TCall.interleaveBuf (if h1.nof_tx_channels = 1 then Chan.tx1 else Chan.tx2)
        h1.buffer_format (nsamples * h1.nof_tx_channels) ∈
      (send_after_start T E reg h1 buf0 data nsamples secs frac_secs
        has_time_spec is_start_of_burst is_end_of_burst).trace := by
  unfold send_after_start
  rw [if_neg hcap]
  dsimp only
  split_ifs <;> simp

/-- With the TX stream already enabled, the transmit call is exactly its
body: no start is triggered. -/
theorem send_streaming_eq (T : Transport) (E : Env) (reg : Bool) (h : Handler)
    (buf0 : Nat → Int) (data : Nat → Option (Nat → ℚ)) (nsamples : Nat)
    (secs : Int) (frac_secs : ℚ) (has_time_spec is_start_of_burst is_end_of_burst : Bool)
    (hstream : h.tx_stream_enabled = true) :
    rf_blade_send_timed_multi T E reg h buf0 data nsamples secs frac_secs
      has_time_spec is_start_of_burst is_end_of_burst =
    send_after_start T E reg h buf0 data nsamples secs frac_secs
      has_time_spec is_start_of_burst is_end_of_burst := by
  simp [rf_blade_send_timed_multi, hstream]

/-- With the TX stream disabled, the transmit call is the lazy stream start
followed by the body run on the post-start session, the start's trace
prefixed and one start transition counted. -/
theorem send_idle_eq (T : Transport) (E : Env) (reg : Bool) (h : Handler)
    (buf0 : Nat → Int) (data : Nat → Option (Nat → ℚ)) (nsamples : Nat)
    (secs : Int) (frac_secs : ℚ) (has_time_spec is_start_of_burst is_end_of_burst : Bool)
    (hidle : h.tx_stream_enabled = false) :
    rf_blade_send_timed_multi T E reg h buf0 data nsamples secs frac_secs
      has_time_spec is_start_of_burst is_end_of_burst =
    { send_after_start T E reg (rf_blade_start_tx_stream T h).handler buf0 data nsamples
        secs frac_secs has_time_spec is_start_of_burst is_end_of_burst with
      trace := (rf_blade_start_tx_stream T h).trace ++
        (send_after_start T E reg (rf_blade_start_tx_stream T h).handler buf0 data nsamples
          secs frac_secs has_time_spec is_start_of_burst is_end_of_burst).trace
      tx_starts := 1 } := by
  simp [rf_blade_send_timed_multi, hidle]

set_option maxHeartbeats 1000000 in
/-- Transfer-status semantics of the transmit body: under a passing capacity
check, a succeeding interleave and a transport whose synchronous transmit
answers with status st and metadata status ms, the outcome is: TIME_PAST
gives the attempted count back and dispatches LATE to a registered handler;
any other nonzero status is returned as is with no fault; a clean transfer
returns the count, dispatching UNDERFLOW only on the underrun metadata
status. -/
theorem send_after_start_status (T : Transport) (E : Env) (reg : Bool) (h1 : Handler)
    (buf0 : Nat → Int) (data : Nat → Option (Nat → ℚ)) (nsamples : Nat)
    (secs : Int) (frac_secs : ℚ) (has_time_spec is_start_of_burst is_end_of_burst : Bool)
    (st : Int) (ms : Nat)
    (hcap : ¬ 2 * nsamples * h1.sample_size * h1.nof_tx_channels > CONVERT_BUFFER_SIZE)
    (hil : ∀ l f c, T.interleave l f c = 0)
    (htx : ∀ c f t, T.sync_tx c f t = (st, ms)) :
    (st = BLADERF_ERR_TIME_PAST →
      (send_after_start T E reg h1 buf0 data nsamples secs frac_secs
        has_time_spec is_start_of_burst is_end_of_burst).ret = (nsamples : Int) ∧
      (send_after_start T E reg h1 buf0 data nsamples secs frac_secs
        has_time_spec is_start_of_burst is_end_of_burst).faults =
        (if reg then [FaultEvent.late] else [])) ∧
    (st ≠ BLADERF_ERR_TIME_PAST → st ≠ 0 →
      (send_after_start T E reg h1 buf0 data nsamples secs frac_secs
        has_time_spec is_start_of_burst is_end_of_burst).ret = st ∧
      (send_after_start T E reg h1 buf0 data nsamples secs frac_secs
        has_time_spec is_start_of_burst is_end_of_burst).faults = []) ∧
    (st = 0 → ms ≠ BLADERF_META_STATUS_UNDERRUN →
      (send_after_start T E reg h1 buf0 data nsamples secs frac_secs
        has_time_spec is_start_of_burst is_end_of_burst).ret = (nsamples : Int) ∧
      (send_after_start T E reg h1 buf0 data nsamples secs frac_secs
        has_time_spec is_start_of_burst is_end_of_burst).faults = []) ∧
    (st = 0 → ms = BLADERF_META_STATUS_UNDERRUN →
      (send_after_start T E reg h1 buf0 data nsamples secs frac_secs
        has_time_spec is_start_of_burst is_end_of_burst).ret = (nsamples : Int) ∧
      (send_after_start T E reg h1 buf0 data nsamples secs frac_secs
        has_time_spec is_start_of_burst is_end_of_burst).faults =
        (if reg then [FaultEvent.underflow] else [])) := by
  unfold send_after_start
  rw [if_neg hcap]
  dsimp only
  simp only [hil, htx]
  split_ifs <;> simp_all [BLADERF_ERR_TIME_PAST, BLADERF_META_STATUS_UNDERRUN]

set_option maxHeartbeats 1000000 in
/-- On the path where the capacity check passes and the interleave succeeds,
the transmit body always issues the synchronous transfer for
nsamples * nof_tx_channels samples. -/
theorem send_after_start_issues_transfer (T : Transport) (E : Env) (reg : Bool) (h1 : Handler)
    (buf0 : Nat → Int) (data : Nat → Option (Nat → ℚ)) (nsamples : Nat)
    (secs : Int) (frac_secs : ℚ) (has_time_spec is_start_of_burst is_end_of_burst : Bool)
    (hcap : ¬ 2 * nsamples * h1.sample_size * h1.nof_tx_channels > CONVERT_BUFFER_SIZE)
    (hil : ∀ l f c, T.interleave l f c = 0) :
    ∃ f t, TCall.syncTx (nsamples * h1.nof_tx_channels) f t ∈
      (send_after_start T E reg h1 buf0 data nsamples secs frac_secs
        has_time_spec is_start_of_burst is_end_of_burst).trace := by
  unfold send_after_start
  rw [if_neg hcap]
  dsimp only
  simp only [hil]
  split_ifs <;>
    first
    | exact ⟨_, _, List.mem_cons_of_mem _ (List.mem_singleton_self _)⟩
    | simp_all


/-- C2: on a transport transmit status of "time in past"
(BLADERF_ERR_TIME_PAST), rf_blade_send_timed_multi dispatches a LATE fault
through the registered handler if one is registered and still returns the
attempted sample count as a success; every other nonzero transfer status is
returned as is (hence negative for the hard transport errors), aborting the
call with no fault dispatched. -/
theorem send_time_past_late_vs_hard_error (T : Transport) (E : Env) (reg : Bool) (h : Handler)
    (buf0 : Nat → Int) (data : Nat → Option (Nat → ℚ)) (nsamples : Nat)
    (secs : Int) (frac_secs : ℚ) (has_time_spec is_start_of_burst is_end_of_burst : Bool)
    (st : Int) (ms : Nat)
    (hcap : ¬ 2 * nsamples * h.sample_size * h.nof_tx_channels > CONVERT_BUFFER_SIZE)
    (hil : ∀ l f c, T.interleave l f c = 0)
    (htx : ∀ c f t, T.sync_tx c f t = (st, ms)) :
    (st = BLADERF_ERR_TIME_PAST →
      (rf_blade_send_timed_multi T E reg h buf0 data nsamples secs frac_secs
        has_time_spec is_start_of_burst is_end_of_burst).ret = (nsamples : Int) ∧
      (rf_blade_send_timed_multi T E reg h buf0 data nsamples secs frac_secs
        has_time_spec is_start_of_burst is_end_of_burst).faults =
        (if reg then [FaultEvent.late] else [])) ∧
    (st ≠ BLADERF_ERR_TIME_PAST → st ≠ 0 →
      (rf_blade_send_timed_multi T E reg h buf0 data nsamples secs frac_secs
        has_time_spec is_start_of_burst is_end_of_burst).ret = st ∧
      (rf_blade_send_timed_multi T E reg h buf0 data nsamples secs frac_secs
        has_time_spec is_start_of_burst is_end_of_burst).faults = [] ∧
      (st < 0 →
        (rf_blade_send_timed_multi T E reg h buf0 data nsamples secs frac_secs
          has_time_spec is_start_of_burst is_end_of_burst).ret < 0)) := by
  by_cases hstr : h.tx_stream_enabled
  · rw [send_streaming_eq T E reg h buf0 data nsamples secs frac_secs
      has_time_spec is_start_of_burst is_end_of_burst hstr]
    have hs := send_after_start_status T E reg h buf0 data nsamples secs frac_secs
      has_time_spec is_start_of_burst is_end_of_burst st ms hcap hil htx
    exact ⟨fun hp => hs.1 hp,
      fun h1 h2 => ⟨(hs.2.1 h1 h2).1, (hs.2.1 h1 h2).2,
        fun hn => by rw [(hs.2.1 h1 h2).1]; exact hn⟩⟩
  · have hidle : h.tx_stream_enabled = false := Bool.eq_false_iff.mpr hstr
    rw [send_idle_eq T E reg h buf0 data nsamples secs frac_secs
      has_time_spec is_start_of_burst is_end_of_burst hidle]
    obtain ⟨hp1, hp2, _, _, _, _⟩ := start_tx_preserves_config T h
    have hcap1 : ¬ 2 * nsamples * ((rf_blade_start_tx_stream T h).handler).sample_size *
        ((rf_blade_start_tx_stream T h).handler).nof_tx_channels > CONVERT_BUFFER_SIZE := by
      rw [hp2, hp1]; exact hcap
    have hs := send_after_start_status T E reg (rf_blade_start_tx_stream T h).handler
      buf0 data nsamples secs frac_secs
      has_time_spec is_start_of_burst is_end_of_burst st ms hcap1 hil htx
    exact ⟨fun hp => hs.1 hp,
      fun h1 h2 => ⟨(hs.2.1 h1 h2).1, (hs.2.1 h1 h2).2,
        fun hn => by
          have := (hs.2.1 h1 h2).1
          change (send_after_start T E reg (rf_blade_start_tx_stream T h).handler buf0 data
            nsamples secs frac_secs has_time_spec is_start_of_burst is_end_of_burst).ret < 0
          rw [this]; exact hn⟩⟩

/-- Witness for C2: a streaming single-channel session whose transport
reports "time in past" on transmit returns the attempted count 100 and
dispatches the LATE fault through the registered handler. -/
theorem send_time_past_late_vs_hard_error_witness :
    (rf_blade_send_timed_multi
      { Tzero with sync_tx := fun _ _ _ => (BLADERF_ERR_TIME_PAST, 0) } Ezero true
      { hSC16 with tx_stream_enabled := true } (fun _ => 0) (fun _ => none)
      100 0 0 false false false).ret = (100 : Int) ∧
    (rf_blade_send_timed_multi
      { Tzero with sync_tx := fun _ _ _ => (BLADERF_ERR_TIME_PAST, 0) } Ezero true
      { hSC16 with tx_stream_enabled := true } (fun _ => 0) (fun _ => none)
      100 0 0 false false false).faults = [FaultEvent.late] := by
  have hthm := send_time_past_late_vs_hard_error
    { Tzero with sync_tx := fun _ _ _ => (BLADERF_ERR_TIME_PAST, 0) } Ezero true
    { hSC16 with tx_stream_enabled := true } (fun _ => 0) (fun _ => none)
    100 0 0 false false false BLADERF_ERR_TIME_PAST 0
    (by decide) (fun _ _ _ => rfl) (fun _ _ _ => rfl)
  exact ⟨(hthm.1 rfl).1, by simpa using (hthm.1 rfl).2⟩

/-- C4: a transmit call issued while the TX stream is Idle triggers exactly
one startStream(TX) transition, whose transport calls form a prefix of the
call's trace and contain no synchronous transfer — so the transfer, when
issued, comes only after the stream start; a transmit call issued while the
TX stream is already Streaming triggers none. -/
theorem send_lazy_start_exactly_once (T : Transport) (E : Env) (reg : Bool) (h : Handler)
    (buf0 : Nat → Int) (data : Nat → Option (Nat → ℚ)) (nsamples : Nat)
    (secs : Int) (frac_secs : ℚ) (has_time_spec is_start_of_burst is_end_of_burst : Bool) :
    (h.tx_stream_enabled = false →
      (rf_blade_send_timed_multi T E reg h buf0 data nsamples secs frac_secs
        has_time_spec is_start_of_burst is_end_of_burst).tx_starts = 1 ∧
      (∃ rest, (rf_blade_send_timed_multi T E reg h buf0 data nsamples secs frac_secs
        has_time_spec is_start_of_burst is_end_of_burst).trace =
          (rf_blade_start_tx_stream T h).trace ++ rest) ∧
      (∀ c ∈ (rf_blade_start_tx_stream T h).trace, ∀ n f t, c ≠ TCall.syncTx n f t)) ∧
    (h.tx_stream_enabled = true →
      (rf_blade_send_timed_multi T E reg h buf0 data nsamples secs frac_secs
        has_time_spec is_start_of_burst is_end_of_burst).tx_starts = 0) := by
  constructor
  · intro hidle
    rw [send_idle_eq T E reg h buf0 data nsamples secs frac_secs
      has_time_spec is_start_of_burst is_end_of_burst hidle]
    exact ⟨rfl, ⟨_, rfl⟩, start_tx_trace_no_syncTx T h⟩
  · intro hstr
    rw [send_streaming_eq T E reg h buf0 data nsamples secs frac_secs
      has_time_spec is_start_of_burst is_end_of_burst hstr]
    exact send_after_start_no_starts T E reg h buf0 data nsamples secs frac_secs
      has_time_spec is_start_of_burst is_end_of_burst

/-- Witness for C4: a transmit on the idle single-channel session makes
exactly one stream-start transition; on the streaming session, none. -/
theorem send_lazy_start_exactly_once_witness :
    (rf_blade_send_timed_multi Tzero Ezero false hSC16 (fun _ => 0) (fun _ => none)
      10 0 0 false false false).tx_starts = 1 ∧
    (rf_blade_send_timed_multi Tzero Ezero false { hSC16 with tx_stream_enabled := true }
      (fun _ => 0) (fun _ => none) 10 0 0 false false false).tx_starts = 0 :=
  ⟨((send_lazy_start_exactly_once Tzero Ezero false hSC16 (fun _ => 0) (fun _ => none)
      10 0 0 false false false).1 rfl).1,
   (send_lazy_start_exactly_once Tzero Ezero false { hSC16 with tx_stream_enabled := true }
      (fun _ => 0) (fun _ => none) 10 0 0 false false false).2 rfl⟩

/-- C6: for every transmit call whose capacity check passes and every
configured TX channel index i with a null per-channel pointer, the channel's
slice of the scratch buffer — the 2 * nsamples scalar components of the
configured wire width starting at component 2 * nsamples * i — is all zero
in the buffer handed to the interleave primitive, which is then invoked
(the transfer follows only after it within the call body). -/
theorem send_null_channel_zero_slice (T : Transport) (E : Env) (reg : Bool) (h : Handler)
    (buf0 : Nat → Int) (data : Nat → Option (Nat → ℚ)) (nsamples : Nat)
    (secs : Int) (frac_secs : ℚ) (has_time_spec is_start_of_burst is_end_of_burst : Bool)
    (i : Nat)
    (hcap : ¬ 2 * nsamples * h.sample_size * h.nof_tx_channels > CONVERT_BUFFER_SIZE)
    (hi : i < h.nof_tx_channels) (hnull : data i = none) :
    ∃ buf, (rf_blade_send_timed_multi T E reg h buf0 data nsamples secs frac_secs
        has_time_spec is_start_of_burst is_end_of_burst).wire_buffer = some buf ∧
      (∀ k, 2 * nsamples * i ≤ k → k < 2 * nsamples * i + 2 * nsamples → buf k = 0) ∧
      (∃ l f c, TCall.interleaveBuf l f c ∈
        (rf_blade_send_timed_multi T E reg h buf0 data nsamples secs frac_secs
          has_time_spec is_start_of_burst is_end_of_burst).trace) := by
  by_cases hstr : h.tx_stream_enabled
  · rw [send_streaming_eq T E reg h buf0 data nsamples secs frac_secs
      has_time_spec is_start_of_burst is_end_of_burst hstr]
    obtain ⟨hwb, hmem⟩ := send_after_start_buffer T E reg h buf0 data nsamples secs frac_secs
      has_time_spec is_start_of_burst is_end_of_burst hcap
    refine ⟨_, hwb, ?_, ⟨_, _, _, hmem⟩⟩
    intro k hk1 hk2
    exact tx_fill_null_slice E h.iq_scale h.buffer_format h.nof_tx_channels nsamples
      data buf0 i k hi hnull hk1 hk2
  · have hidle : h.tx_stream_enabled = false := Bool.eq_false_iff.mpr hstr
    rw [send_idle_eq T E reg h buf0 data nsamples secs frac_secs
      has_time_spec is_start_of_burst is_end_of_burst hidle]
    obtain ⟨hp1, hp2, _, _, _, _⟩ := start_tx_preserves_config T h
    have hcap1 : ¬ 2 * nsamples * ((rf_blade_start_tx_stream T h).handler).sample_size *
        ((rf_blade_start_tx_stream T h).handler).nof_tx_channels > CONVERT_BUFFER_SIZE := by
      rw [hp2, hp1]; exact hcap
    have hi1 : i < ((rf_blade_start_tx_stream T h).handler).nof_tx_channels := by
      rw [hp1]; exact hi
    obtain ⟨hwb, hmem⟩ := send_after_start_buffer T E reg
      (rf_blade_start_tx_stream T h).handler buf0 data nsamples secs frac_secs
      has_time_spec is_start_of_burst is_end_of_burst hcap1
    refine ⟨_, hwb, ?_, ⟨_, _, _, List.mem_append_right _ hmem⟩⟩
    intro k hk1 hk2
    exact tx_fill_null_slice E ((rf_blade_start_tx_stream T h).handler).iq_scale
      ((rf_blade_start_tx_stream T h).handler).buffer_format
      ((rf_blade_start_tx_stream T h).handler).nof_tx_channels nsamples
      data buf0 i k hi1 hnull hk1 hk2

/-- Witness for C6: a transmit of 4 samples on the streaming single-channel
session with a null channel-0 pointer leaves scalar component 3 of the wire
buffer zero. -/
theorem send_null_channel_zero_slice_witness :
    ∃ buf, (rf_blade_send_timed_multi Tzero Ezero false
      { hSC16 with tx_stream_enabled := true } (fun _ => 0) (fun _ => none)
      4 0 0 false false false).wire_buffer = some buf ∧ buf 3 = 0 := by
  obtain ⟨buf, hwb, hz, _⟩ := send_null_channel_zero_slice Tzero Ezero false
    { hSC16 with tx_stream_enabled := true } (fun _ => 0) (fun _ => none)
    4 0 0 false false false 0 (by decide) (by decide) rfl
  exact ⟨buf, hwb, hz 3 (by decide) (by decide)⟩

/-- C9: rf_blade_send_timed_multi discards the status of the lazy
rf_blade_start_tx_stream call: even when the stream start fails, a transmit
issued while the TX stream is Idle still converts into the scratch buffer,
issues the synchronous transfer, and (under a clean transfer) returns the
attempted count instead of aborting with the start error. -/
theorem send_ignores_start_failure (T : Transport) (E : Env) (reg : Bool) (h : Handler)
    (buf0 : Nat → Int) (data : Nat → Option (Nat → ℚ)) (nsamples : Nat)
    (secs : Int) (frac_secs : ℚ) (has_time_spec is_start_of_burst is_end_of_burst : Bool)
    (hidle : h.tx_stream_enabled = false)
    (hfail : (rf_blade_start_tx_stream T h).status ≠ 0)
    (hcap : ¬ 2 * nsamples * h.sample_size * h.nof_tx_channels > CONVERT_BUFFER_SIZE)
    (hil : ∀ l f c, T.interleave l f c = 0)
    (htx : ∀ c f t, T.sync_tx c f t = ((0 : Int), (0 : Nat))) :
    (rf_blade_send_timed_multi T E reg h buf0 data nsamples secs frac_secs
      has_time_spec is_start_of_burst is_end_of_burst).ret = (nsamples : Int) ∧
    (rf_blade_send_timed_multi T E reg h buf0 data nsamples secs frac_secs
      has_time_spec is_start_of_burst is_end_of_burst).wire_buffer ≠ none ∧
    (∃ f t, TCall.syncTx (nsamples * h.nof_tx_channels) f t ∈
      (rf_blade_send_timed_multi T E reg h buf0 data nsamples secs frac_secs
        has_time_spec is_start_of_burst is_end_of_burst).trace) := by
  rw [send_idle_eq T E reg h buf0 data nsamples secs frac_secs
    has_time_spec is_start_of_burst is_end_of_burst hidle]
  obtain ⟨hp1, hp2, _, _, _, _⟩ := start_tx_preserves_config T h
  have hcap1 : ¬ 2 * nsamples * ((rf_blade_start_tx_stream T h).handler).sample_size *
      ((rf_blade_start_tx_stream T h).handler).nof_tx_channels > CONVERT_BUFFER_SIZE := by
    rw [hp2, hp1]; exact hcap
  have hs := send_after_start_status T E reg (rf_blade_start_tx_stream T h).handler
    buf0 data nsamples secs frac_secs has_time_spec is_start_of_burst is_end_of_burst
    0 0 hcap1 hil htx
  obtain ⟨f, t, hmem⟩ := send_after_start_issues_transfer T E reg
    (rf_blade_start_tx_stream T h).handler buf0 data nsamples secs frac_secs
    has_time_spec is_start_of_burst is_end_of_burst hcap1 hil
  rw [hp1] at hmem
  obtain ⟨hwb, _⟩ := send_after_start_buffer T E reg
    (rf_blade_start_tx_stream T h).handler buf0 data nsamples secs frac_secs
    has_time_spec is_start_of_burst is_end_of_burst hcap1
  refine ⟨(hs.2.2.1 rfl (by decide)).1, ?_, f, t, List.mem_append_right _ hmem⟩
  change (send_after_start T E reg (rf_blade_start_tx_stream T h).handler buf0 data
    nsamples secs frac_secs has_time_spec is_start_of_burst is_end_of_burst).wire_buffer ≠ none
  rw [hwb]
  simp

/-- Witness for C9: with a transport whose sync-interface configuration
fails (status -7) so that the lazy stream start fails, a 10-sample transmit
on the idle single-channel session still returns 10. -/
theorem send_ignores_start_failure_witness :
    (rf_blade_send_timed_multi { Tzero with sync_config := fun _ _ _ => -7 } Ezero false
      hSC16 (fun _ => 0) (fun _ => none) 10 0 0 false false false).ret = (10 : Int) :=
  (send_ignores_start_failure { Tzero with sync_config := fun _ _ _ => -7 } Ezero false
    hSC16 (fun _ => 0) (fun _ => none) 10 0 0 false false false rfl (by decide)
    (by decide) (fun _ _ _ => rfl) (fun _ _ _ => rfl)).1



/-- C7 (failing evaluation): the channel-count guard of rf_blade_open_multi
only rejects counts above 2, although its own diagnostic message says the
count should be 1 or 2.  Opening with nof_channels = 0, an empty
configuration and an all-succeeding transport therefore returns
SRSRAN_SUCCESS and creates a session whose channel counts are both 0,
instead of failing with a configuration error and no session.  The other
validations the claim describes do hold: counts above 2 and unrecognized
format, log_level or tuning_mode values fail with an error and no session,
and absent keys default safely (a plain single-channel open succeeds). -/
theorem open_multi_accepts_zero_channels :
    (rf_blade_open_multi Tzero hSC16 argsEmpty 0).status = SRSRAN_SUCCESS ∧
    (∃ hh, (rf_blade_open_multi Tzero hSC16 argsEmpty 0).session = some hh ∧
      hh.nof_tx_channels = 0 ∧ hh.nof_rx_channels = 0) ∧
    (rf_blade_open_multi Tzero hSC16 argsEmpty 3).status = SRSRAN_ERROR ∧
    (rf_blade_open_multi Tzero hSC16 argsEmpty 3).session = none ∧
    (rf_blade_open_multi Tzero hSC16
      { argsEmpty with format := some badFormatStr } 1).status = SRSRAN_ERROR ∧
    (rf_blade_open_multi Tzero hSC16
      { argsEmpty with format := some badFormatStr } 1).session = none ∧
    (rf_blade_open_multi Tzero hSC16
      { argsEmpty with log_level := some badLogLevelStr } 1).status = SRSRAN_ERROR ∧
    (rf_blade_open_multi Tzero hSC16
      { argsEmpty with log_level := some badLogLevelStr } 1).session = none ∧
    (rf_blade_open_multi Tzero hSC16
      { argsEmpty with tuning_mode := some badTuningModeStr } 1).status = SRSRAN_ERROR ∧
    (rf_blade_open_multi Tzero hSC16
      { argsEmpty with tuning_mode := some badTuningModeStr } 1).session = none ∧
    (rf_blade_open_multi Tzero hSC16 argsEmpty 1).status = SRSRAN_SUCCESS :=
  ⟨rfl, ⟨_, rfl, rfl, rfl⟩, rfl, rfl, rfl, rfl, rfl, rfl, rfl, rfl, rfl⟩


end RfBlade
